import Mathlib

/-!
Shallow embedding of `src/crypto/bls/src/aggregate_signature.rs`: the generic
`AggregateSignature<Pub, AggPub, Sig, AggSig>` wrapper over a BLS backend.

The Rust type is generic over a backend point type `AggSig` implementing the
`TAggregateSignature` trait (zero, add_assign, add_assign_aggregate,
serialize, deserialize, fast_aggregate_verify, aggregate_verify).  We model
the backend as a `Backend` structure bundling the abstract point, public-key,
hash and error types together with those operations; the wrapper's code is
translated line by line on top of it.  Bytes are modelled as `List Nat`.
-/

namespace BlsSpec

/-- `pub const SIGNATURE_BYTES_LEN: usize = 96;` -/
def SIGNATURE_BYTES_LEN : Nat := 96

/-- `pub const NONE_SIGNATURE: [u8; SIGNATURE_BYTES_LEN] = [0; SIGNATURE_BYTES_LEN];` -/
def NONE_SIGNATURE : List Nat := List.replicate SIGNATURE_BYTES_LEN 0

/-- The backend capability contract (`TAggregateSignature` and the opaque
types it is generic over).  Fields mirror the trait methods used by the
wrapper code in `aggregate_signature.rs`. -/
structure Backend where
  Point : Type
  SigPoint : Type
  PubKey : Type
  Hash : Type
  Err : Type
  zero : Point
  add_assign : Point → SigPoint → Point
  add_assign_aggregate : Point → Point → Point
  serialize : Point → List Nat
  deserialize : List Nat → Except Err Point
  fast_aggregate_verify : Point → Hash → List PubKey → Bool
  aggregate_verify : Point → List Hash → List PubKey → Bool

/-- Modelled from the spec: the `Signature<Pub, Sig>` wrapper is not under
`src/`; per the spec (§3) it "wraps an optional backend point" and its
`point()` accessor returns that option, which is all `aggregate_signature.rs`
uses of it. -/
structure Signature (B : Backend) where
  point : Option B.SigPoint

/-- `pub struct AggregateSignature { point: Option<AggSig>, ... }`
(the phantom-type markers carry no data and are dropped; `PartialEq`
compares `point`, matching structure equality here). -/
structure AggregateSignature (B : Backend) where
  point : Option B.Point

namespace AggregateSignature

/-- `AggregateSignature::zero` -/
def zero (B : Backend) : AggregateSignature B :=
  ⟨some B.zero⟩

/-- `AggregateSignature::empty` -/
def empty (B : Backend) : AggregateSignature B :=
  ⟨none⟩

/-- `AggregateSignature::is_empty`: `self.point.is_none()` -/
def is_empty {B : Backend} (a : AggregateSignature B) : Bool :=
  a.point.isNone

/-- `AggregateSignature::add_assign` -/
def add_assign {B : Backend} (a : AggregateSignature B) (other : Signature B) :
    AggregateSignature B :=
  match other.point with
  | none => a
  | some other_point =>
    match a.point with
    | some self_point => ⟨some (B.add_assign self_point other_point)⟩
    | none => ⟨some (B.add_assign B.zero other_point)⟩

/-- `AggregateSignature::add_assign_aggregate` -/
def add_assign_aggregate {B : Backend} (a other : AggregateSignature B) :
    AggregateSignature B :=
  match other.point with
  | none => a
  | some other_point =>
    match a.point with
    | some self_point => ⟨some (B.add_assign_aggregate self_point other_point)⟩
    | none => ⟨some (B.add_assign_aggregate B.zero other_point)⟩

/-- `AggregateSignature::serialize` -/
def serialize {B : Backend} (a : AggregateSignature B) : List Nat :=
  match a.point with
  | some point => B.serialize point
  | none => NONE_SIGNATURE

/-- `AggregateSignature::deserialize` (`?` on the backend call becomes an
explicit match propagating the error). -/
def deserialize (B : Backend) (bytes : List Nat) :
    Except B.Err (AggregateSignature B) :=
  if bytes = NONE_SIGNATURE then
    Except.ok ⟨none⟩
  else
    match B.deserialize bytes with
    | Except.ok p => Except.ok ⟨some p⟩
    | Except.error e => Except.error e

/-- `AggregateSignature::fast_aggregate_verify` -/
def fast_aggregate_verify {B : Backend} (a : AggregateSignature B)
    (msg : B.Hash) (pubkeys : List B.PubKey) : Bool :=
  if pubkeys.isEmpty then
    false
  else
    match a.point with
    | some point => B.fast_aggregate_verify point msg pubkeys
    | none => false

/-- `AggregateSignature::aggregate_verify` -/
def aggregate_verify {B : Backend} (a : AggregateSignature B)
    (msgs : List B.Hash) (pubkeys : List B.PubKey) : Bool :=
  if msgs.isEmpty || msgs.length != pubkeys.length then
    false
  else
    match a.point with
    | some point => B.aggregate_verify point msgs pubkeys
    | none => false

end AggregateSignature

/-- A fold instruction: one `add_assign` (with a signature) or one
`add_assign_aggregate` (with another aggregate) call. -/
inductive FoldItem (B : Backend) where
  | sig : Signature B → FoldItem B
  | agg : AggregateSignature B → FoldItem B

/-- Perform one fold instruction on an aggregate. -/
def fold_step {B : Backend} (a : AggregateSignature B) (item : FoldItem B) :
    AggregateSignature B :=
  match item with
  | FoldItem.sig s => a.add_assign s
  | FoldItem.agg o => a.add_assign_aggregate o

/-- Perform a sequence of fold instructions left to right. -/
def fold_items {B : Backend} (a : AggregateSignature B)
    (items : List (FoldItem B)) : AggregateSignature B :=
  items.foldl fold_step a

/-- A concrete executable backend instance used to evaluate the theorems on
concrete inputs: points are naturals under addition, a point `p` encodes as
the 96-"byte" string `(p+1) :: replicate 95 0` (never all zero). -/
def mock_serialize (p : Nat) : List Nat :=
  (p + 1) :: List.replicate 95 0

/-- Decode of the mock encoding: accepts exactly the strings produced by
`mock_serialize` and rejects everything else (wrong length, zero lead). -/
def mock_deserialize (bytes : List Nat) : Except Unit Nat :=
  match bytes with
  | [] => Except.error ()
  | b :: rest =>
    if b ≠ 0 ∧ rest = List.replicate 95 0 then Except.ok (b - 1)
    else Except.error ()

/-- The bundled mock backend. -/
abbrev MockB : Backend where
  Point := Nat
  SigPoint := Nat
  PubKey := Nat
  Hash := Nat
  Err := Unit
  zero := 0
  add_assign := fun p x => p + x
  add_assign_aggregate := fun p q => p + q
  serialize := mock_serialize
  deserialize := mock_deserialize
  fast_aggregate_verify := fun p _ keys => decide (p = keys.length)
  aggregate_verify := fun p msgs _ => decide (p = msgs.length)

/-- C1: `serialize(empty())` is exactly 96 zero bytes; `deserialize` on the
all-zero 96-byte sentinel succeeds with `empty()`; and a successful
`deserialize` yields an aggregate with `is_empty() == true` iff the input is
the all-zero 96-byte sentinel; any other successfully decoded input yields a
non-empty aggregate holding the backend-decoded point. -/
theorem serialize_empty_and_sentinel (B : Backend) :
    (AggregateSignature.empty B).serialize = List.replicate 96 0 ∧
    AggregateSignature.deserialize B (List.replicate 96 0) =
      Except.ok (AggregateSignature.empty B) ∧
    ∀ bytes a, AggregateSignature.deserialize B bytes = Except.ok a →
      ((a.is_empty = true ↔ bytes = List.replicate 96 0) ∧
        (bytes ≠ List.replicate 96 0 →
          ∃ p, a.point = some p ∧ B.deserialize bytes = Except.ok p)) := by
  refine ⟨rfl, by
    rw [AggregateSignature.deserialize,
      if_pos (show List.replicate 96 0 = NONE_SIGNATURE from rfl)]
    rfl, ?_⟩
  intro bytes a h
  rw [AggregateSignature.deserialize] at h
  by_cases hb : bytes = NONE_SIGNATURE
  · rw [if_pos hb] at h
    cases h
    exact ⟨by simpa [AggregateSignature.is_empty] using hb, fun hc => absurd hb hc⟩
  · rw [if_neg hb] at h
    cases hB : B.deserialize bytes with
    | ok p =>
      rw [hB] at h
      cases h
      refine ⟨?_, fun _ => ⟨p, rfl, rfl⟩⟩
      simp only [AggregateSignature.is_empty, Option.isNone_some]
      exact ⟨fun hc => absurd hc (by simp), fun hc => absurd hc hb⟩
    | error e =>
      rw [hB] at h
      cases h

/-- C1 witness: the mock backend on the all-zero sentinel input. -/
theorem serialize_empty_and_sentinel_witness :
    (⟨none⟩ : AggregateSignature MockB).is_empty = true ↔
      NONE_SIGNATURE = List.replicate 96 0 :=
  ((serialize_empty_and_sentinel MockB).2.2 NONE_SIGNATURE ⟨none⟩
    (by rw [AggregateSignature.deserialize, if_pos rfl])).1

/-- C3: both verification operations are total boolean functions:
`fast_aggregate_verify` is `false` on an empty key list or an empty
aggregate and otherwise returns the backend's single-message multi-key
result; `aggregate_verify` is `false` on empty messages, a length mismatch,
or an empty aggregate, and otherwise returns the backend's multi-message
result. -/
theorem verify_boolean_spec (B : Backend) (a : AggregateSignature B)
    (msg : B.Hash) (pubkeys : List B.PubKey) (msgs : List B.Hash) :
    (pubkeys = [] → a.fast_aggregate_verify msg pubkeys = false) ∧
    (a.is_empty = true → a.fast_aggregate_verify msg pubkeys = false) ∧
    (∀ p, a.point = some p → pubkeys ≠ [] →
      a.fast_aggregate_verify msg pubkeys = B.fast_aggregate_verify p msg pubkeys) ∧
    (msgs = [] → a.aggregate_verify msgs pubkeys = false) ∧
    (msgs.length ≠ pubkeys.length → a.aggregate_verify msgs pubkeys = false) ∧
    (a.is_empty = true → a.aggregate_verify msgs pubkeys = false) ∧
    (∀ p, a.point = some p → msgs ≠ [] → msgs.length = pubkeys.length →
      a.aggregate_verify msgs pubkeys = B.aggregate_verify p msgs pubkeys) := by
  refine ⟨?_, ?_, ?_, ?_, ?_, ?_, ?_⟩
  · intro h
    subst h
    rfl
  · intro h
    have hp : a.point = none := Option.isNone_iff_eq_none.mp h
    rw [AggregateSignature.fast_aggregate_verify, hp]
    split <;> rfl
  · intro p hp hne
    cases pubkeys with
    | nil => exact absurd rfl hne
    | cons k ks =>
      rw [AggregateSignature.fast_aggregate_verify, hp]
      rfl
  · intro h
    subst h
    rfl
  · intro h
    rw [AggregateSignature.aggregate_verify, if_pos]
    simp [h]
  · intro h
    have hp : a.point = none := Option.isNone_iff_eq_none.mp h
    rw [AggregateSignature.aggregate_verify, hp]
    split <;> rfl
  · intro p hp hne hlen
    cases msgs with
    | nil => exact absurd rfl hne
    | cons m ms =>
      rw [AggregateSignature.aggregate_verify, hp, if_neg]
      simp [hlen]

/-- C3 witness: the mock backend with an empty key list. -/
theorem verify_boolean_spec_witness :
    AggregateSignature.fast_aggregate_verify
      (⟨some 2⟩ : AggregateSignature MockB) 0 [] = false :=
  (verify_boolean_spec MockB ⟨some 2⟩ 0 [] []).1 rfl

/-- C4: emptiness is one-way: a non-empty aggregate stays non-empty under
both folding operations, and an empty aggregate stays empty exactly when the
folded-in signature has no point, resp. the folded-in aggregate is empty. -/
theorem empty_one_way (B : Backend) (a : AggregateSignature B)
    (s : Signature B) (o : AggregateSignature B) :
    (a.is_empty = false →
      (a.add_assign s).is_empty = false ∧
        (a.add_assign_aggregate o).is_empty = false) ∧
    (a.is_empty = true →
      ((a.add_assign s).is_empty = true ↔ s.point = none) ∧
      ((a.add_assign_aggregate o).is_empty = true ↔ o.is_empty = true)) := by
  obtain ⟨pa⟩ := a
  obtain ⟨ps⟩ := s
  obtain ⟨po⟩ := o
  cases pa <;> cases ps <;> cases po <;>
    simp [AggregateSignature.is_empty, AggregateSignature.add_assign,
      AggregateSignature.add_assign_aggregate]

/-- C4 witness: a non-empty mock aggregate stays non-empty. -/
theorem empty_one_way_witness :
    ((⟨some 1⟩ : AggregateSignature MockB).add_assign ⟨some 2⟩).is_empty = false ∧
    ((⟨some 1⟩ : AggregateSignature MockB).add_assign_aggregate ⟨none⟩).is_empty
      = false :=
  (empty_one_way MockB ⟨some 1⟩ ⟨some 2⟩ ⟨none⟩).1 rfl

/-- C5: `zero()` is not empty, `empty()` is empty, and folding a signature
with a real point into `empty()` serializes identically to folding it into
`zero()`. -/
theorem zero_vs_empty (B : Backend) (s : Signature B) (hs : s.point ≠ none) :
    (AggregateSignature.zero B).is_empty = false ∧
    (AggregateSignature.empty B).is_empty = true ∧
    ((AggregateSignature.empty B).add_assign s).serialize =
      ((AggregateSignature.zero B).add_assign s).serialize := by
  refine ⟨rfl, rfl, ?_⟩
  obtain ⟨ps⟩ := s
  cases ps with
  | none => exact absurd rfl hs
  | some x => rfl

/-- C5 witness: the mock backend with the signature holding point 3. -/
theorem zero_vs_empty_witness :
    (AggregateSignature.zero MockB).is_empty = false ∧
    (AggregateSignature.empty MockB).is_empty = true ∧
    ((AggregateSignature.empty MockB).add_assign ⟨some 3⟩).serialize =
      ((AggregateSignature.zero MockB).add_assign ⟨some 3⟩).serialize :=
  zero_vs_empty MockB ⟨some 3⟩ (by simp)

/-- C6: a "none" signature folded by `add_assign`, or an `empty()` aggregate
folded by `add_assign_aggregate`, leaves the aggregate (and hence its
serialization) unchanged. -/
theorem noop_absorption (B : Backend) (a : AggregateSignature B)
    (s : Signature B) (o : AggregateSignature B)
    (hs : s.point = none) (ho : o.is_empty = true) :
    a.add_assign s = a ∧ a.add_assign_aggregate o = a ∧
    (a.add_assign s).serialize = a.serialize ∧
    (a.add_assign_aggregate o).serialize = a.serialize := by
  have hop : o.point = none := Option.isNone_iff_eq_none.mp ho
  have h1 : a.add_assign s = a := by
    unfold AggregateSignature.add_assign
    rw [hs]
  have h2 : a.add_assign_aggregate o = a := by
    unfold AggregateSignature.add_assign_aggregate
    rw [hop]
  exact ⟨h1, h2, by rw [h1], by rw [h2]⟩

/-- C6 witness: the mock backend, aggregate holding 5, none signature and
empty aggregate. -/
theorem noop_absorption_witness :
    (⟨some 5⟩ : AggregateSignature MockB).add_assign ⟨none⟩ = ⟨some 5⟩ ∧
    (⟨some 5⟩ : AggregateSignature MockB).add_assign_aggregate ⟨none⟩ = ⟨some 5⟩ ∧
    ((⟨some 5⟩ : AggregateSignature MockB).add_assign ⟨none⟩).serialize =
      (⟨some 5⟩ : AggregateSignature MockB).serialize ∧
    ((⟨some 5⟩ : AggregateSignature MockB).add_assign_aggregate ⟨none⟩).serialize =
      (⟨some 5⟩ : AggregateSignature MockB).serialize :=
  noop_absorption MockB ⟨some 5⟩ ⟨none⟩ ⟨none⟩ rfl rfl

/-- C9: folding a non-empty identity-point aggregate (`zero()`) into
`empty()` is not a wrapper no-op: the result is non-empty, and (because the
backend identity absorbs) serializes to `zero()`'s bytes. -/
theorem fold_zero_into_empty (B : Backend)
    (hid : B.add_assign_aggregate B.zero B.zero = B.zero) :
    ((AggregateSignature.empty B).add_assign_aggregate
        (AggregateSignature.zero B)).is_empty = false ∧
    ((AggregateSignature.empty B).add_assign_aggregate
        (AggregateSignature.zero B)).serialize =
      (AggregateSignature.zero B).serialize := by
  refine ⟨rfl, ?_⟩
  show B.serialize (B.add_assign_aggregate B.zero B.zero) = B.serialize B.zero
  rw [hid]

/-- C9 witness: the mock backend, where `0 + 0 = 0`. -/
theorem fold_zero_into_empty_witness :
    ((AggregateSignature.empty MockB).add_assign_aggregate
        (AggregateSignature.zero MockB)).is_empty = false ∧
    ((AggregateSignature.empty MockB).add_assign_aggregate
        (AggregateSignature.zero MockB)).serialize =
      (AggregateSignature.zero MockB).serialize :=
  fold_zero_into_empty MockB rfl

/-- Wrap a backend point as a non-empty aggregate (the `Some` branch of
`deserialize`). -/
def wrap_some (B : Backend) (p : B.Point) : AggregateSignature B :=
  ⟨some p⟩

/-- C10: an all-zero input whose length is not 96 is not the sentinel: it is
handed to the backend decoder, and a success can only produce a non-empty
aggregate, never `empty()`. -/
theorem sentinel_needs_exact_length (B : Backend) (n : Nat) (h : n ≠ 96) :
    AggregateSignature.deserialize B (List.replicate n 0) =
      Except.map (wrap_some B) (B.deserialize (List.replicate n 0)) ∧
    ∀ a, AggregateSignature.deserialize B (List.replicate n 0) = Except.ok a →
      a.is_empty = false := by
  have hne : List.replicate n 0 ≠ NONE_SIGNATURE := by
    intro hc
    apply h
    have hlen := congrArg List.length hc
    simpa [NONE_SIGNATURE, SIGNATURE_BYTES_LEN] using hlen
  rw [AggregateSignature.deserialize, if_neg hne]
  cases hB : B.deserialize (List.replicate n 0) with
  | ok p =>
    refine ⟨rfl, ?_⟩
    intro a ha
    cases ha
    rfl
  | error e => exact ⟨rfl, fun a ha => by cases ha⟩

/-- C10 witness: 95 zero bytes on the mock backend. -/
theorem sentinel_needs_exact_length_witness :
    AggregateSignature.deserialize MockB (List.replicate 95 0) =
      Except.map (wrap_some MockB) (MockB.deserialize (List.replicate 95 0)) :=
  (sentinel_needs_exact_length MockB 95 (by decide)).1

/-- C2: given the backend contract that non-96-byte inputs are rejected,
`deserialize` fails (and never succeeds) on every input of length ≠ 96 and
on every 96-byte non-sentinel input the backend rejects. -/
theorem deserialize_rejects_invalid (B : Backend) (bytes : List Nat)
    (hlen : bytes.length ≠ 96 → ∃ e, B.deserialize bytes = Except.error e)
    (hbad : bytes.length ≠ 96 ∨
      (bytes ≠ NONE_SIGNATURE ∧ ∃ e, B.deserialize bytes = Except.error e)) :
    (∃ e, AggregateSignature.deserialize B bytes = Except.error e) ∧
    ∀ a, AggregateSignature.deserialize B bytes ≠ Except.ok a := by
  obtain ⟨hne, e, he⟩ :
      bytes ≠ NONE_SIGNATURE ∧ ∃ e, B.deserialize bytes = Except.error e := by
    cases hbad with
    | inl h =>
      refine ⟨?_, hlen h⟩
      intro hc
      apply h
      rw [hc]
      simp [NONE_SIGNATURE, SIGNATURE_BYTES_LEN]
    | inr h => exact h
  rw [AggregateSignature.deserialize, if_neg hne, he]
  exact ⟨⟨e, rfl⟩, fun a ha => Except.noConfusion ha⟩

/-- C2 witness: 97 zero bytes on the mock backend fail to decode. -/
theorem deserialize_rejects_invalid_witness :
    AggregateSignature.deserialize MockB (List.replicate 97 0) =
      Except.error () := by
  obtain ⟨e, he⟩ := (deserialize_rejects_invalid MockB (List.replicate 97 0)
    (fun _ => ⟨(), rfl⟩) (Or.inl (by decide))).1
  cases e
  exact he

/-- C7: for a valid aggregate (its held point round-trips through the
backend codec and never encodes as all zeros), `deserialize(serialize(a))`
succeeds with an aggregate equal to `a`, hence with the same emptiness and
the same serialized bytes. -/
theorem round_trip (B : Backend) (a : AggregateSignature B)
    (hvalid : ∀ p, a.point = some p →
      B.deserialize (B.serialize p) = Except.ok p ∧
        B.serialize p ≠ NONE_SIGNATURE) :
    AggregateSignature.deserialize B a.serialize = Except.ok a ∧
    ∀ b, AggregateSignature.deserialize B a.serialize = Except.ok b →
      b.is_empty = a.is_empty ∧ b.serialize = a.serialize := by
  have main : AggregateSignature.deserialize B a.serialize = Except.ok a := by
    obtain ⟨pa⟩ := a
    cases pa with
    | none =>
      show AggregateSignature.deserialize B NONE_SIGNATURE = Except.ok ⟨none⟩
      rw [AggregateSignature.deserialize, if_pos rfl]
    | some p =>
      obtain ⟨hrt, hne⟩ := hvalid p rfl
      show AggregateSignature.deserialize B (B.serialize p) = Except.ok ⟨some p⟩
      rw [AggregateSignature.deserialize, if_neg hne, hrt]
  refine ⟨main, ?_⟩
  intro b hb
  rw [main] at hb
  cases hb
  exact ⟨rfl, rfl⟩

/-- C7 witness: the mock aggregate holding point 4 round-trips. -/
theorem round_trip_witness :
    AggregateSignature.deserialize MockB
      ((⟨some 4⟩ : AggregateSignature MockB).serialize) = Except.ok ⟨some 4⟩ :=
  (round_trip MockB ⟨some 4⟩ (by
    intro p hp
    cases hp
    exact ⟨rfl, by decide⟩)).1

/-- Adjacent fold steps commute once backend addition is addition by a
commutative associative operation (the key lemma behind C8). -/
theorem fold_step_right_comm (B : Backend)
    (add : B.Point → B.Point → B.Point) (lift : B.SigPoint → B.Point)
    (hsig : ∀ p x, B.add_assign p x = add p (lift x))
    (hagg : ∀ p q, B.add_assign_aggregate p q = add p q)
    (hcomm : ∀ p q, add p q = add q p)
    (hassoc : ∀ p q r, add (add p q) r = add p (add q r))
    (z : AggregateSignature B) (i j : FoldItem B) :
    fold_step (fold_step z i) j = fold_step (fold_step z j) i := by
  have hrc : ∀ p q r, add (add p q) r = add (add p r) q := by
    intro p q r
    rw [hassoc, hcomm q r, hassoc]
  obtain ⟨pz⟩ := z
  rcases i with ⟨⟨_ | x⟩⟩ | ⟨⟨_ | x⟩⟩ <;>
    rcases j with ⟨⟨_ | y⟩⟩ | ⟨⟨_ | y⟩⟩ <;>
      rcases pz with _ | pz <;>
        simp [fold_step, AggregateSignature.add_assign,
          AggregateSignature.add_assign_aggregate, hsig, hagg] <;>
        exact hrc _ _ _

/-- C8: with backend point addition given by a commutative associative
operation, folding a permutation of the same list of signature/aggregate
items into an aggregate yields the same aggregate, hence the same
serialized bytes. -/
theorem fold_order_independent (B : Backend)
    (add : B.Point → B.Point → B.Point) (lift : B.SigPoint → B.Point)
    (hsig : ∀ p x, B.add_assign p x = add p (lift x))
    (hagg : ∀ p q, B.add_assign_aggregate p q = add p q)
    (hcomm : ∀ p q, add p q = add q p)
    (hassoc : ∀ p q r, add (add p q) r = add p (add q r))
    (a : AggregateSignature B) (items items2 : List (FoldItem B))
    (hperm : List.Perm items items2) :
    fold_items a items = fold_items a items2 ∧
    (fold_items a items).serialize = (fold_items a items2).serialize := by
  have main : fold_items a items = fold_items a items2 := by
    unfold fold_items
    exact hperm.foldl_eq'
      (fun i _ j _ z => fold_step_right_comm B add lift hsig hagg hcomm hassoc z i j) a
  exact ⟨main, by rw [main]⟩

/-- C8 witness: on the mock backend, a signature fold and an aggregate fold
commute. -/
theorem fold_order_independent_witness :
    fold_items (AggregateSignature.empty MockB)
        [FoldItem.sig ⟨some 1⟩, FoldItem.agg ⟨some 2⟩] =
      fold_items (AggregateSignature.empty MockB)
        [FoldItem.agg ⟨some 2⟩, FoldItem.sig ⟨some 1⟩] :=
  (fold_order_independent MockB (fun p q => p + q) (fun x => x)
    (fun _ _ => rfl) (fun _ _ => rfl) Nat.add_comm Nat.add_assoc
    (AggregateSignature.empty MockB)
    [FoldItem.sig ⟨some 1⟩, FoldItem.agg ⟨some 2⟩]
    [FoldItem.agg ⟨some 2⟩, FoldItem.sig ⟨some 1⟩]
    (List.Perm.swap _ _ _)).1

end BlsSpec
